import Mathlib

/-!
Shallow embedding, in Lean 4, of the control-plane core of the chainsail
(resaas) repository:

* `check_status` from `app/controller/resaas/controller/run.py` — the
  process health bridge mapping a supervised child process's exit code to a
  `ProcessStatus` pair `(is_alive, state_label)`.
* `SchedulerConfigSchema.make_scheduler_config`, `DRIVER_SCHEMAS` and
  `SchedulerConfig` from `scheduler/resaas/scheduler/config.py` — the
  driver registry and two-level configuration resolution.
* `_encode_array`, `_decode_array` and `SafeUserPDF` from
  `lib/common/resaas/common/pdfs/__init__.py` — the remote density
  evaluation client and its raw float64 wire format.

Python dicts are embedded as association lists with a decidable-equality
lookup; machine data (exit codes) as `Int`; the 8 raw bytes of one IEEE-754
float64 as its 64-bit pattern, a `Nat` below `2 ^ 64`, serialized
little-endian (the native byte order of the x86-64 hosts the code targets).
Byte-level round trips are independent of the floating-point reading of
each 8-byte group, so the bit-pattern view is faithful to
`numpy.tobytes` / `numpy.frombuffer`.
-/

namespace Resaas

/-- Association-list lookup with decidable equality, embedding Python
`dict` indexing / `in` tests (first binding wins; Python dicts have unique
keys, so this is exact on the images of dicts). -/
def dictLookup {α β : Type} [DecidableEq α] (k : α) : List (α × β) → Option β
  | [] => none
  | (k2, v) :: rest => if k = k2 then some v else dictLookup k rest

/-! ## Process health bridge (`run.py`) -/

/-- `ProcessStatus = Tuple[bool, str]` from `run.py`: the pair
(is-alive, state-label). -/
abbrev ProcessStatus := Bool × String

/-- Embedding of `check_status(proc)` from `run.py`. The supervised
`multiprocessing.Process` handle is represented by the only attribute the
function reads: `proc.exitcode`, which is `None` while the process has not
terminated and an integer exit code afterwards.

```python
def check_status(proc: Process) -> ProcessStatus:
    if proc.exitcode is None:
        return (True, "SERVING")
    elif proc.exitcode != 0:
        return (False, "FAILED")
    else:
        return (True, "SUCCESS")
``` -/
def check_status (exitcode : Option Int) : ProcessStatus :=
  match exitcode with
  | none => (true, "SERVING")
  | some c => if c ≠ 0 then (false, "FAILED") else (true, "SUCCESS")

end Resaas

namespace Resaas

/-- C1: the health query returns SERVING when the exit code is absent,
SUCCESS when it is zero, and FAILED for every non-zero exit code
(including signal-derived codes such as 137). -/
theorem check_status_classification :
    check_status none = (true, "SERVING")
      ∧ check_status (some 0) = (true, "SUCCESS")
      ∧ ∀ c : Int, c ≠ 0 → check_status (some c) = (false, "FAILED") := by
  refine ⟨rfl, rfl, fun c hc => ?_⟩
  simp [check_status, hc]

/-- Witness for C1 at the concrete exit code 137 from the spec scenario. -/
theorem check_status_classification_witness :
    (137 : Int) ≠ 0 ∧ check_status (some 137) = (false, "FAILED") :=
  ⟨by decide, check_status_classification.2.2 137 (by decide)⟩

/-- C10: the is-alive boolean of the `ProcessStatus` pair is `false`
exactly when the state label is FAILED; it is `true` both for SERVING and
for SUCCESS (even though in the SUCCESS case the process has terminated). -/
theorem check_status_alive_iff_not_failed (exitcode : Option Int) :
    ((check_status exitcode).1 = false ↔ (check_status exitcode).2 = "FAILED")
      ∧ ((check_status exitcode).2 = "SERVING" → (check_status exitcode).1 = true)
      ∧ ((check_status exitcode).2 = "SUCCESS" → (check_status exitcode).1 = true) := by
  match exitcode with
  | none => refine ⟨⟨fun h => by simp [check_status] at h, fun h => ?_⟩, fun _ => rfl, fun _ => rfl⟩
            simp [check_status] at h
  | some c =>
    by_cases hc : c = 0
    · subst hc
      refine ⟨⟨fun h => by simp [check_status] at h, fun h => ?_⟩, fun _ => rfl, fun _ => rfl⟩
      simp [check_status] at h
    · simp [check_status, hc]

/-- Witness for C10 at exit code 137: the pair is `(false, "FAILED")` and
the iff transports `FAILED` to `is_alive = false`. -/
theorem check_status_alive_iff_not_failed_witness :
    (check_status (some 137)).1 = false :=
  (check_status_alive_iff_not_failed (some 137)).1.mpr (by decide)

/-- A trace of exit-code observations of a non-restarting process: once the
exit code is observed as some concrete value it stays that value on every
later observation (`Process.exitcode` of a process that is never restarted
is `None` for an initial segment and then a constant integer). -/
def NonRestartingTrace (obs : Nat → Option Int) : Prop :=
  ∀ i j c, i ≤ j → obs i = some c → obs j = some c

/-- C7: over any non-restarting observation trace, the queried health state
machine is one-directional and terminal: whenever the state changes between
query `i` and a later query `j`, the earlier state was SERVING and the
later one is terminal (SUCCESS or FAILED); and once a query returns a
terminal state, every later query returns that same full status. -/
theorem check_status_terminal (obs : Nat → Option Int)
    (htrace : NonRestartingTrace obs) (i j : Nat) (hij : i ≤ j) :
    (((check_status (obs i)).2 = "SUCCESS" ∨ (check_status (obs i)).2 = "FAILED") →
        check_status (obs j) = check_status (obs i))
      ∧ ((check_status (obs i)).2 ≠ (check_status (obs j)).2 →
          (check_status (obs i)).2 = "SERVING"
            ∧ ((check_status (obs j)).2 = "SUCCESS" ∨ (check_status (obs j)).2 = "FAILED")) := by
  match hi : obs i with
  | some c =>
    have hj : obs j = some c := htrace i j c hij hi
    rw [hj]
    exact ⟨fun _ => rfl, fun hne => absurd rfl hne⟩
  | none =>
    constructor
    · intro hterm
      rcases hterm with h | h <;> simp [check_status] at h
    · intro hne
      refine ⟨rfl, ?_⟩
      match hj : obs j with
      | none => rw [hj] at hne; exact absurd rfl hne
      | some c =>
        by_cases hc : c = 0
        · subst hc; exact Or.inl rfl
        · right; simp [check_status, hc]

/-- Witness for C7: a concrete non-restarting trace that runs for two
queries and then exits with code 0; from query 0 (SERVING) to query 5
(SUCCESS) the transition facts hold. -/
theorem check_status_terminal_witness :
    NonRestartingTrace (fun n => if n < 2 then none else some 0)
      ∧ ((((check_status ((fun n => if n < 2 then none else some 0) 2)).2 = "SUCCESS"
            ∨ (check_status ((fun n => if n < 2 then none else some 0) 2)).2 = "FAILED") →
          check_status ((fun n => if n < 2 then none else some 0) 5)
            = check_status ((fun n => if n < 2 then none else some 0) 2))
        ∧ ((check_status ((fun n => if n < 2 then none else some 0) 2)).2
              ≠ (check_status ((fun n => if n < 2 then none else some 0) 5)).2 →
            (check_status ((fun n => if n < 2 then none else some 0) 2)).2 = "SERVING"
              ∧ ((check_status ((fun n => if n < 2 then none else some 0) 5)).2 = "SUCCESS"
                  ∨ (check_status ((fun n => if n < 2 then none else some 0) 5)).2 = "FAILED"))) := by
  have htrace : NonRestartingTrace (fun n => if n < 2 then none else some 0) := by
    intro i j c hij hi
    by_cases hilt : i < 2
    · simp [hilt] at hi
    · have hjlt : ¬ j < 2 := fun hj => hilt (lt_of_le_of_lt hij hj)
      simp [hilt] at hi
      simp [hjlt, hi]
  exact ⟨htrace, check_status_terminal _ htrace 2 5 (by decide)⟩

/-! ## Scheduler driver registry and configuration resolution (`config.py`) -/

/-- Modelled from the spec: `NodeType` (imported in `config.py` from
`resaas.scheduler.nodes.base`, a module not in the sources) is an
enumeration identifying a class of provisionable compute node; the only
member the registry mentions is `LIBCLOUD_VM`. -/
inductive NodeType where
  | LIBCLOUD_VM
deriving DecidableEq, Repr

/-- The two driver factory callables stored in `DRIVER_SCHEMAS`
(`libcloud`'s `GCENodeDriver` and the test double
`DeployableDummyNodeDriver`). Resolution only stores a factory; the sole
place a factory is applied is `SchedulerConfig.create_node_driver`, so an
enumeration tag embeds them faithfully for the resolver. -/
inductive DriverFactory where
  | GCENodeDriver
  | DeployableDummyNodeDriver
deriving DecidableEq, Repr

/-- A driver-specific configuration section: the string-valued fields of a
`driver_specs` entry, as a Python dict (association list). -/
abbrev DriverSpec := List (String × String)

/-- A marshmallow driver-config schema, embedded by what both concrete
schemas in `config.py` consist of: a list of declared field names, all of
them `fields.String(required=True)`. -/
abbrev DriverSchema := List String

/-- `GCEDriverConfigSchema`: required string fields `user_id`, `key`,
`project`, `datacenter`. -/
def GCEDriverConfigSchema : DriverSchema := ["user_id", "key", "project", "datacenter"]

/-- `DummyDriverConfigSchema`: required string field `creds`. -/
def DummyDriverConfigSchema : DriverSchema := ["creds"]

/-- `schema().load(section)` for a driver-config schema whose fields are
all required strings: loading succeeds iff every declared field is present
in the section and every key of the section is declared (marshmallow
raises `ValidationError` on a missing required field and, by its default
`unknown = RAISE` policy, on an unknown field); the validated data is the
section itself. Failure is `none`, embedding the raised
`marshmallow.exceptions.ValidationError`. -/
def schemaLoad (schema : DriverSchema) (section_ : DriverSpec) : Option DriverSpec :=
  if schema.all (fun f => (dictLookup f section_).isSome)
      && section_.all (fun kv => schema.contains kv.1)
  then some section_
  else none

/-- The registry type of `DRIVER_SCHEMAS`:
`Dict[NodeType, Dict[str, Tuple[Callable, Schema]]]`. -/
abbrev Registry := List (NodeType × List (String × (DriverFactory × DriverSchema)))

/-- `DRIVER_SCHEMAS` from `config.py`: the process-wide registry mapping
`NodeType.LIBCLOUD_VM` to its two registered drivers. -/
def DRIVER_SCHEMAS : Registry :=
  [(NodeType.LIBCLOUD_VM,
    [("gce", (DriverFactory.GCENodeDriver, GCEDriverConfigSchema)),
     ("dummy", (DriverFactory.DeployableDummyNodeDriver, DummyDriverConfigSchema))])]

/-- `SchedulerConfig` from `config.py`: the resolved configuration, field
names as in `__init__` (`self.image = node_image`, `self.size = node_size`). -/
structure SchedulerConfig where
  ssh_public_key : String
  node_entrypoint : String
  image : String
  size : String
  node_type : NodeType
  driver : DriverFactory
  driver_args : List String
  driver_kwargs : DriverSpec
deriving DecidableEq, Repr

/-- A node-driver instance: the result of applying a driver factory, which
happens only in `SchedulerConfig.create_node_driver`
(`self.driver(*self.driver_args, **self.driver_kwargs)`). It records the
factory applied and the arguments it was applied to. -/
structure NodeDriverInstance where
  factory : DriverFactory
  args : List String
  kwargs : DriverSpec
deriving DecidableEq, Repr

/-- `SchedulerConfig.create_node_driver` from `config.py`: the only code
that invokes a driver factory. -/
def SchedulerConfig.create_node_driver (c : SchedulerConfig) : NodeDriverInstance :=
  { factory := c.driver, args := c.driver_args, kwargs := c.driver_kwargs }

/-- The `data` dict passed to the `@post_load` hook
`make_scheduler_config`: the top-level fields of `SchedulerConfigSchema`
after base-shape validation. `driver_specs` is the nested per-driver
configuration block (`fields.Dict(fields.String, fields.Dict)`). -/
structure SchedulerConfigData where
  ssh_public_key : String
  node_entrypoint : String
  node_image : String
  node_size : String
  node_type : NodeType
  node_driver : String
  driver_specs : List (String × DriverSpec)
deriving DecidableEq, Repr

/-- The four distinguishable resolution failures of
`SchedulerConfigSchema.make_scheduler_config`, one constructor per
`raise ValidationError` site (the fourth is the `ValidationError` that the
driver-config `schema().load` raises itself). They carry the data the
corresponding Python error message interpolates. -/
inductive ValidationError where
  | unknownNodeType (node_type : NodeType)
  | unknownDriver (driver : String)
  | missingDriverSpec (driver : String)
  | invalidDriverSpec (driver : String)
deriving DecidableEq, Repr

/-- `SchedulerConfigSchema.make_scheduler_config` from `config.py`. The
Python method reads the module-level `DRIVER_SCHEMAS`; the registry is an
explicit first argument here (pass `DRIVER_SCHEMAS` for the deployed
behaviour), so that the registry scenarios of the spec are statable.

```python
node_type = data["node_type"]
if node_type not in DRIVER_SCHEMAS:
    raise ValidationError(...)                     # unknownNodeType
requested_driver = data["node_driver"]
if requested_driver not in DRIVER_SCHEMAS[node_type]:
    raise ValidationError(...)                     # unknownDriver
driver, driver_config_schema = DRIVER_SCHEMAS[node_type][requested_driver]
if requested_driver not in data["driver_specs"]:
    raise ValidationError(...)                     # missingDriverSpec
driver_config = driver_config_schema().load(data["driver_specs"][requested_driver])
return SchedulerConfig(..., driver_args=(), driver_kwargs=driver_config)
``` -/
def make_scheduler_config (registry : Registry) (data : SchedulerConfigData) :
    Except ValidationError SchedulerConfig :=
  match dictLookup data.node_type registry with
  | none => .error (.unknownNodeType data.node_type)
  | some drivers =>
    match dictLookup data.node_driver drivers with
    | none => .error (.unknownDriver data.node_driver)
    | some (driver, driver_config_schema) =>
      match dictLookup data.node_driver data.driver_specs with
      | none => .error (.missingDriverSpec data.node_driver)
      | some raw_section =>
        match schemaLoad driver_config_schema raw_section with
        | none => .error (.invalidDriverSpec data.node_driver)
        | some driver_config =>
          .ok { ssh_public_key := data.ssh_public_key
                node_entrypoint := data.node_entrypoint
                image := data.node_image
                size := data.node_size
                node_type := data.node_type
                driver := driver
                driver_args := []
                driver_kwargs := driver_config }

/-- The registry of the spec scenario for C2: only the pair
`(LIBCLOUD_VM, "dummy")` is registered. -/
def dummyOnlyRegistry : Registry :=
  [(NodeType.LIBCLOUD_VM,
    [("dummy", (DriverFactory.DeployableDummyNodeDriver, DummyDriverConfigSchema))])]

/-- A raw configuration (after base-shape validation) requesting the
`gce` driver, with a well-formed `gce` section in `driver_specs`. -/
def exampleGCEData : SchedulerConfigData :=
  { ssh_public_key := "ssh-rsa AAAA"
    node_entrypoint := "run_node.sh"
    node_image := "ubuntu-1804"
    node_size := "small"
    node_type := NodeType.LIBCLOUD_VM
    node_driver := "gce"
    driver_specs :=
      [("gce", [("user_id", "u"), ("key", "k"), ("project", "p"), ("datacenter", "d")])] }

/-- The resolved configuration `exampleGCEData` produces against
`DRIVER_SCHEMAS`. -/
def exampleGCEConfig : SchedulerConfig :=
  { ssh_public_key := "ssh-rsa AAAA"
    node_entrypoint := "run_node.sh"
    image := "ubuntu-1804"
    size := "small"
    node_type := NodeType.LIBCLOUD_VM
    driver := DriverFactory.GCENodeDriver
    driver_args := []
    driver_kwargs := [("user_id", "u"), ("key", "k"), ("project", "p"), ("datacenter", "d")] }

/-- C2: when the node-type has no registry entry, resolution fails with
`unknownNodeType`; when the node-type is registered but the driver
identifier is not among its drivers, resolution fails with
`unknownDriver`; in both cases no `SchedulerConfig` is produced, so no
driver factory is ever applied (the only application site,
`create_node_driver`, consumes a `SchedulerConfig`). -/
theorem make_scheduler_config_unknown (registry : Registry) (data : SchedulerConfigData) :
    (dictLookup data.node_type registry = none →
        make_scheduler_config registry data = .error (.unknownNodeType data.node_type)
          ∧ ∀ cfg, make_scheduler_config registry data ≠ .ok cfg)
      ∧ (∀ drivers, dictLookup data.node_type registry = some drivers →
          dictLookup data.node_driver drivers = none →
          make_scheduler_config registry data = .error (.unknownDriver data.node_driver)
            ∧ ∀ cfg, make_scheduler_config registry data ≠ .ok cfg) := by
  constructor
  · intro hnt
    have h : make_scheduler_config registry data = .error (.unknownNodeType data.node_type) := by
      simp only [make_scheduler_config, hnt]
    exact ⟨h, fun cfg hok => by rw [h] at hok; exact Except.noConfusion hok⟩
  · intro drivers hnt hdrv
    have h : make_scheduler_config registry data = .error (.unknownDriver data.node_driver) := by
      simp only [make_scheduler_config, hnt, hdrv]
    exact ⟨h, fun cfg hok => by rw [h] at hok; exact Except.noConfusion hok⟩

/-- Witness for C2, the spec scenario: the registry holds only
`(LIBCLOUD_VM, "dummy")` and the raw configuration requests driver `gce`
for node-type `LIBCLOUD_VM`; resolution fails with `unknownDriver "gce"`. -/
theorem make_scheduler_config_unknown_witness :
    dictLookup exampleGCEData.node_type dummyOnlyRegistry
        = some [("dummy", (DriverFactory.DeployableDummyNodeDriver, DummyDriverConfigSchema))]
      ∧ dictLookup exampleGCEData.node_driver
          [("dummy", (DriverFactory.DeployableDummyNodeDriver, DummyDriverConfigSchema))] = none
      ∧ (make_scheduler_config dummyOnlyRegistry exampleGCEData
            = .error (.unknownDriver exampleGCEData.node_driver)
          ∧ ∀ cfg, make_scheduler_config dummyOnlyRegistry exampleGCEData ≠ .ok cfg) :=
  ⟨rfl, rfl,
    (make_scheduler_config_unknown dummyOnlyRegistry exampleGCEData).2
      [("dummy", (DriverFactory.DeployableDummyNodeDriver, DummyDriverConfigSchema))] rfl rfl⟩

/-- C5: for a registered (node-type, driver) pair, a missing section for
the driver in `driver_specs` fails with `missingDriverSpec`, and a present
section that fails validation against the driver's registered schema fails
with `invalidDriverSpec`; in neither case is a `SchedulerConfig`
constructed. -/
theorem make_scheduler_config_spec_errors (registry : Registry) (data : SchedulerConfigData)
    (drivers : List (String × (DriverFactory × DriverSchema)))
    (driver : DriverFactory) (driver_config_schema : DriverSchema)
    (hnt : dictLookup data.node_type registry = some drivers)
    (hdrv : dictLookup data.node_driver drivers = some (driver, driver_config_schema)) :
    (dictLookup data.node_driver data.driver_specs = none →
        make_scheduler_config registry data = .error (.missingDriverSpec data.node_driver)
          ∧ ∀ cfg, make_scheduler_config registry data ≠ .ok cfg)
      ∧ (∀ raw_section, dictLookup data.node_driver data.driver_specs = some raw_section →
          schemaLoad driver_config_schema raw_section = none →
          make_scheduler_config registry data = .error (.invalidDriverSpec data.node_driver)
            ∧ ∀ cfg, make_scheduler_config registry data ≠ .ok cfg) := by
  constructor
  · intro hspec
    have h : make_scheduler_config registry data
        = .error (.missingDriverSpec data.node_driver) := by
      simp only [make_scheduler_config, hnt, hdrv, hspec]
    exact ⟨h, fun cfg hok => by rw [h] at hok; exact Except.noConfusion hok⟩
  · intro raw_section hspec hload
    have h : make_scheduler_config registry data
        = .error (.invalidDriverSpec data.node_driver) := by
      simp only [make_scheduler_config, hnt, hdrv, hspec, hload]
    exact ⟨h, fun cfg hok => by rw [h] at hok; exact Except.noConfusion hok⟩

/-- A raw configuration requesting the registered `dummy` driver whose
`dummy` section omits the required `creds` field. -/
def missingCredsData : SchedulerConfigData :=
  { ssh_public_key := "ssh-rsa AAAA"
    node_entrypoint := "run_node.sh"
    node_image := "ubuntu-1804"
    node_size := "small"
    node_type := NodeType.LIBCLOUD_VM
    node_driver := "dummy"
    driver_specs := [("dummy", [])] }

/-- Witness for C5 against the deployed registry `DRIVER_SCHEMAS`: the
`dummy` section is present but omits the required `creds` field, so
resolution fails with `invalidDriverSpec` and produces no configuration. -/
theorem make_scheduler_config_spec_errors_witness :
    dictLookup missingCredsData.node_driver missingCredsData.driver_specs = some []
      ∧ schemaLoad DummyDriverConfigSchema [] = none
      ∧ (make_scheduler_config DRIVER_SCHEMAS missingCredsData
            = .error (.invalidDriverSpec missingCredsData.node_driver)
          ∧ ∀ cfg, make_scheduler_config DRIVER_SCHEMAS missingCredsData ≠ .ok cfg) :=
  ⟨rfl, rfl,
    (make_scheduler_config_spec_errors DRIVER_SCHEMAS missingCredsData
        [("gce", (DriverFactory.GCENodeDriver, GCEDriverConfigSchema)),
         ("dummy", (DriverFactory.DeployableDummyNodeDriver, DummyDriverConfigSchema))]
        DriverFactory.DeployableDummyNodeDriver DummyDriverConfigSchema rfl rfl).2
      [] rfl rfl⟩

/-- C8: a successful resolution copies the validated top-level fields into
the `SchedulerConfig`, binds the driver factory looked up in the registry,
sets empty positional driver arguments, and uses the schema-validated
driver section as the keyword arguments. -/
theorem make_scheduler_config_binds (registry : Registry) (data : SchedulerConfigData)
    (cfg : SchedulerConfig)
    (h : make_scheduler_config registry data = .ok cfg) :
    cfg.ssh_public_key = data.ssh_public_key
      ∧ cfg.node_entrypoint = data.node_entrypoint
      ∧ cfg.image = data.node_image
      ∧ cfg.size = data.node_size
      ∧ cfg.node_type = data.node_type
      ∧ cfg.driver_args = []
      ∧ ∃ drivers driver_config_schema raw_section,
          dictLookup data.node_type registry = some drivers
            ∧ dictLookup data.node_driver drivers = some (cfg.driver, driver_config_schema)
            ∧ dictLookup data.node_driver data.driver_specs = some raw_section
            ∧ schemaLoad driver_config_schema raw_section = some cfg.driver_kwargs := by
  unfold make_scheduler_config at h
  match hnt : dictLookup data.node_type registry with
  | none => simp only [hnt] at h; exact Except.noConfusion h
  | some drivers =>
    simp only [hnt] at h
    match hdrv : dictLookup data.node_driver drivers with
    | none => simp only [hdrv] at h; exact Except.noConfusion h
    | some (driver, driver_config_schema) =>
      simp only [hdrv] at h
      match hspec : dictLookup data.node_driver data.driver_specs with
      | none => simp only [hspec] at h; exact Except.noConfusion h
      | some raw_section =>
        simp only [hspec] at h
        match hload : schemaLoad driver_config_schema raw_section with
        | none => simp only [hload] at h; exact Except.noConfusion h
        | some driver_config =>
          simp only [hload] at h
          have hcfg := Except.ok.inj h
          subst hcfg
          exact ⟨rfl, rfl, rfl, rfl, rfl, rfl,
            drivers, driver_config_schema, raw_section, rfl, hdrv, rfl, hload⟩

/-- Witness for C8: resolving `exampleGCEData` against the deployed
registry yields `exampleGCEConfig`, whose fields satisfy the binding
property. -/
theorem make_scheduler_config_binds_witness :
    make_scheduler_config DRIVER_SCHEMAS exampleGCEData = .ok exampleGCEConfig
      ∧ (exampleGCEConfig.ssh_public_key = exampleGCEData.ssh_public_key
          ∧ exampleGCEConfig.node_entrypoint = exampleGCEData.node_entrypoint
          ∧ exampleGCEConfig.image = exampleGCEData.node_image
          ∧ exampleGCEConfig.size = exampleGCEData.node_size
          ∧ exampleGCEConfig.node_type = exampleGCEData.node_type
          ∧ exampleGCEConfig.driver_args = []
          ∧ ∃ drivers driver_config_schema raw_section,
              dictLookup exampleGCEData.node_type DRIVER_SCHEMAS = some drivers
                ∧ dictLookup exampleGCEData.node_driver drivers
                    = some (exampleGCEConfig.driver, driver_config_schema)
                ∧ dictLookup exampleGCEData.node_driver exampleGCEData.driver_specs
                    = some raw_section
                ∧ schemaLoad driver_config_schema raw_section
                    = some exampleGCEConfig.driver_kwargs) :=
  ⟨rfl, make_scheduler_config_binds DRIVER_SCHEMAS exampleGCEData exampleGCEConfig rfl⟩

/-- C9: resolution is a pure function of the raw configuration and the
static registry; resolving the same valid raw configuration twice yields
configurations that are value-equal in every field. -/
theorem make_scheduler_config_idempotent (data : SchedulerConfigData)
    (c1 c2 : SchedulerConfig)
    (h1 : make_scheduler_config DRIVER_SCHEMAS data = .ok c1)
    (h2 : make_scheduler_config DRIVER_SCHEMAS data = .ok c2) :
    c1.ssh_public_key = c2.ssh_public_key
      ∧ c1.node_entrypoint = c2.node_entrypoint
      ∧ c1.image = c2.image
      ∧ c1.size = c2.size
      ∧ c1.node_type = c2.node_type
      ∧ c1.driver = c2.driver
      ∧ c1.driver_args = c2.driver_args
      ∧ c1.driver_kwargs = c2.driver_kwargs := by
  have h : c1 = c2 := Except.ok.inj (h1.symm.trans h2)
  subst h
  exact ⟨rfl, rfl, rfl, rfl, rfl, rfl, rfl, rfl⟩

/-- Witness for C9: two resolutions of `exampleGCEData` agree on every
field. -/
theorem make_scheduler_config_idempotent_witness :
    make_scheduler_config DRIVER_SCHEMAS exampleGCEData = .ok exampleGCEConfig
      ∧ (exampleGCEConfig.ssh_public_key = exampleGCEConfig.ssh_public_key
          ∧ exampleGCEConfig.node_entrypoint = exampleGCEConfig.node_entrypoint
          ∧ exampleGCEConfig.image = exampleGCEConfig.image
          ∧ exampleGCEConfig.size = exampleGCEConfig.size
          ∧ exampleGCEConfig.node_type = exampleGCEConfig.node_type
          ∧ exampleGCEConfig.driver = exampleGCEConfig.driver
          ∧ exampleGCEConfig.driver_args = exampleGCEConfig.driver_args
          ∧ exampleGCEConfig.driver_kwargs = exampleGCEConfig.driver_kwargs) :=
  ⟨rfl, make_scheduler_config_idempotent exampleGCEData exampleGCEConfig exampleGCEConfig rfl rfl⟩

/-! ## Remote density evaluation wire format (`pdfs/__init__.py`)

`_encode_array(x) = x.tobytes()` dumps the raw bytes of a 1-D float64
array: 8 bytes per element, native (little-endian) order, no header.
`_decode_array(x) = np.frombuffer(x)` reinterprets a byte buffer as
float64 elements, raising `ValueError` when the buffer length is not a
multiple of the 8-byte element size. Both are bit-pattern transparent —
no float arithmetic happens — so an element is embedded as its 64-bit
pattern, a `Nat` below `2 ^ 64`, and a byte as a `Nat` below `256`. -/

/-- The 8 little-endian bytes of one float64 element, as `tobytes` emits
them: byte `i` is `(v >> 8 i) & 0xFF`. -/
def encodeF64 (v : Nat) : List Nat :=
  [v % 256, v / 256 % 256, v / 256 / 256 % 256, v / 256 / 256 / 256 % 256,
   v / 256 / 256 / 256 / 256 % 256, v / 256 / 256 / 256 / 256 / 256 % 256,
   v / 256 / 256 / 256 / 256 / 256 / 256 % 256,
   v / 256 / 256 / 256 / 256 / 256 / 256 / 256 % 256]

/-- Reassemble one float64 bit pattern from its 8 little-endian bytes. -/
def bytesToF64 (b0 b1 b2 b3 b4 b5 b6 b7 : Nat) : Nat :=
  b0 + 256 * (b1 + 256 * (b2 + 256 * (b3 + 256 * (b4 + 256 * (b5 + 256 * (b6 + 256 * b7))))))

/-- `_encode_array(x) = x.tobytes()`: the elements' bytes, packed
contiguously with no header. -/
def encode_array : List Nat → List Nat
  | [] => []
  | v :: rest => encodeF64 v ++ encode_array rest

/-- The element loop of `np.frombuffer`: read the buffer 8 bytes at a
time (only ever applied to buffers whose length is a multiple of 8). -/
def decodeF64s : List Nat → List Nat
  | b0 :: b1 :: b2 :: b3 :: b4 :: b5 :: b6 :: b7 :: rest =>
      bytesToF64 b0 b1 b2 b3 b4 b5 b6 b7 :: decodeF64s rest
  | _ => []

/-- `_decode_array(x) = np.frombuffer(x)` with the default float64 dtype:
fails (numpy raises `ValueError`) when the buffer length is not a
multiple of the element size, and otherwise reinterprets the whole buffer
as float64 elements. -/
def decode_array (buffer : List Nat) : Except String (List Nat) :=
  if buffer.length % 8 = 0 then .ok (decodeF64s buffer)
  else .error "buffer size must be a multiple of element size"

/-- Decoding one encoded element off the front of a buffer recovers the
element, provided its bit pattern fits in 64 bits. -/
theorem decodeF64s_encodeF64 (v : Nat) (hv : v < 2 ^ 64) (rest : List Nat) :
    decodeF64s (encodeF64 v ++ rest) = v :: decodeF64s rest := by
  show bytesToF64 (v % 256) (v / 256 % 256) (v / 256 / 256 % 256) (v / 256 / 256 / 256 % 256)
        (v / 256 / 256 / 256 / 256 % 256) (v / 256 / 256 / 256 / 256 / 256 % 256)
        (v / 256 / 256 / 256 / 256 / 256 / 256 % 256)
        (v / 256 / 256 / 256 / 256 / 256 / 256 / 256 % 256)
      :: decodeF64s rest = v :: decodeF64s rest
  have hv64 : v < 18446744073709551616 := by exact_mod_cast hv
  unfold bytesToF64
  congr 1
  omega

/-- The encoded buffer of an n-element vector is 8 n bytes long. -/
theorem encode_array_length (x : List Nat) : (encode_array x).length = 8 * x.length := by
  induction x with
  | nil => rfl
  | cons v rest ih =>
    simp [encode_array, encodeF64, ih]
    ring

/-- C3: encoding a vector of 64-bit float bit patterns to the wire format
and decoding the resulting byte buffer reproduces the vector exactly, for
every length (0, 1, and N). -/
theorem decode_encode_roundtrip (x : List Nat) (h : ∀ v ∈ x, v < 2 ^ 64) :
    decode_array (encode_array x) = .ok x := by
  have hlen : (encode_array x).length % 8 = 0 := by
    rw [encode_array_length]
    omega
  unfold decode_array
  rw [if_pos hlen]
  congr 1
  induction x with
  | nil => rfl
  | cons v rest ih =>
    have hv : v < 2 ^ 64 := h v (List.mem_cons_self v rest)
    have hrest : ∀ w ∈ rest, w < 2 ^ 64 := fun w hw => h w (List.mem_cons_of_mem v hw)
    show decodeF64s (encodeF64 v ++ encode_array rest) = v :: rest
    rw [decodeF64s_encodeF64 v hv]
    have hlenrest : (encode_array rest).length % 8 = 0 := by
      rw [encode_array_length]; omega
    rw [ih hrest hlenrest]

/-- Witness for C3 at vectors of length 0, 1 and 2 (the last containing
the largest 64-bit pattern). -/
theorem decode_encode_roundtrip_witness :
    decode_array (encode_array []) = .ok []
      ∧ decode_array (encode_array [42]) = .ok [42]
      ∧ decode_array (encode_array [1, 18446744073709551615])
          = .ok [1, 18446744073709551615] :=
  ⟨decode_encode_roundtrip [] (by simp),
   decode_encode_roundtrip [42] (by decide),
   decode_encode_roundtrip [1, 18446744073709551615] (by decide)⟩

/-- If a buffer length is a multiple of 8, `np.frombuffer` yields exactly
one element per 8 bytes. -/
theorem decodeF64s_length (b : List Nat) (h : b.length % 8 = 0) :
    8 * (decodeF64s b).length = b.length := by
  induction b using decodeF64s.induct with
  | case1 b0 b1 b2 b3 b4 b5 b6 b7 rest ih =>
    simp only [decodeF64s, List.length_cons] at *
    omega
  | case2 b hne =>
    match b, hne with
    | [], _ => rfl
    | [b0], _ => simp at h
    | [b0, b1], _ => simp at h
    | [b0, b1, b2], _ => simp at h
    | [b0, b1, b2, b3], _ => simp at h
    | [b0, b1, b2, b3, b4], _ => simp at h
    | [b0, b1, b2, b3, b4, b5], _ => simp at h
    | [b0, b1, b2, b3, b4, b5, b6], _ => simp at h
    | b0 :: b1 :: b2 :: b3 :: b4 :: b5 :: b6 :: b7 :: rest, hne =>
      exact absurd rfl (hne b0 b1 b2 b3 b4 b5 b6 b7 rest)

/-! ## Remote density evaluation client (`SafeUserPDF`) -/

/-- `user_code_pb2.LogProbRequest`: the encoded state and the job id. -/
structure LogProbRequest where
  state_bytes : List Nat
  job_id : String
deriving DecidableEq, Repr

/-- `user_code_pb2.LogProbResponse`: the scalar result, as its float64
bit pattern. -/
structure LogProbResponse where
  log_prob_result : Nat
deriving DecidableEq, Repr

/-- `user_code_pb2.LogProbGradientRequest`: the encoded state and the job
id. -/
structure LogProbGradientRequest where
  state_bytes : List Nat
  job_id : String
deriving DecidableEq, Repr

/-- `user_code_pb2.LogProbGradientResponse`: the gradient byte buffer. -/
structure LogProbGradientResponse where
  gradient_bytes : List Nat
deriving DecidableEq, Repr

/-- The failures a remote evaluation call can surface to its caller.
`rpcError` embeds a `grpc.RpcError` (transport failure or remote-side
error reported over the channel); `valueError` embeds the `ValueError`
numpy raises on a malformed buffer. `remoteEvaluationError` is modelled
from the spec: the single wrapping evaluation-failure kind the spec calls
`RemoteEvaluationError`, carrying its original cause — no code under
`src/` defines or raises it, and it is present here only so that the
spec's classification is statable against the code. -/
inductive PDFError where
  | rpcError (message : String)
  | valueError (message : String)
  | remoteEvaluationError (cause : String)
deriving DecidableEq, Repr

/-- Does a failure have the spec's wrapped `RemoteEvaluationError` kind? -/
def PDFError.isRemoteEvaluationError : PDFError → Bool
  | .remoteEvaluationError _ => true
  | _ => false

/-- The gRPC stub `user_code_pb2_grpc.UserCodeStub` held by a
`SafeUserPDF`: each call either returns a response or raises, which is
embedded as `Except`. -/
structure UserCodeStub where
  LogProb : LogProbRequest → Except PDFError LogProbResponse
  LogProbGradient : LogProbGradientRequest → Except PDFError LogProbGradientResponse

/-- `SafeUserPDF.__init__` stores a channel-bound stub and the job id;
the channel (host, port) is absorbed into the stub functions. -/
structure SafeUserPDF where
  stub : UserCodeStub
  job_id : String

/-- `SafeUserPDF.log_prob` from `pdfs/__init__.py`:

```python
request = user_code_pb2.LogProbRequest(
    state_bytes=_encode_array(state), job_id=self._job_id
)
return self._stub.LogProb(request).log_prob_result
```

There is no `try`/`except`: an error raised by the stub propagates to the
caller unchanged. -/
def SafeUserPDF.log_prob (pdf : SafeUserPDF) (state : List Nat) : Except PDFError Nat :=
  match pdf.stub.LogProb { state_bytes := encode_array state, job_id := pdf.job_id } with
  | .error e => .error e
  | .ok response => .ok response.log_prob_result

/-- `SafeUserPDF.log_prob_gradient` from `pdfs/__init__.py`:

```python
request = user_code_pb2.LogProbGradientRequest(
    state_bytes=_encode_array(state), job_id=self._job_id
)
response = self._stub.LogProbGradient(request)
return _decode_array(response.gradient_bytes)
```

There is no `try`/`except`: a stub error propagates unchanged and a
decode failure surfaces as the raw `ValueError`. -/
def SafeUserPDF.log_prob_gradient (pdf : SafeUserPDF) (state : List Nat) :
    Except PDFError (List Nat) :=
  match pdf.stub.LogProbGradient { state_bytes := encode_array state, job_id := pdf.job_id } with
  | .error e => .error e
  | .ok response =>
    match decode_array response.gradient_bytes with
    | .error message => .error (.valueError message)
    | .ok gradient => .ok gradient

/-- A stub whose gradient response is the 16-byte encoding of the vector
`[3, 5]` truncated to its first 8 bytes: a malformed (truncated) payload
for an agreed dimensionality of 2. -/
def truncatedStub : UserCodeStub :=
  { LogProb := fun _ => .error (.rpcError "unimplemented")
    LogProbGradient := fun _ => .ok { gradient_bytes := (encode_array [3, 5]).take 8 } }

/-- Counterexample to C4: the agreed vector `[3, 5]` occupies 16 bytes;
a response payload truncated to its first 8 bytes (so its byte length is
not the agreed 16) is not rejected at all — `log_prob_gradient` silently
accepts it as the shorter vector `[3]`. -/
theorem log_prob_gradient_truncated_counterexample :
    (encode_array [3, 5]).length = 16
      ∧ ((encode_array [3, 5]).take 8).length = 8
      ∧ SafeUserPDF.log_prob_gradient { stub := truncatedStub, job_id := "job" } [0, 0]
          = .ok [3] :=
  ⟨rfl, rfl, rfl⟩

/-- C4 as amended: decoding a gradient response fails exactly when the
payload byte length is not a multiple of the 8-byte element size, and the
failure surfaces as the raw numpy `ValueError` (no `RemoteEvaluationError`
classification exists in the code); a truncated payload whose byte length
is a smaller multiple of 8 is silently accepted as a vector of one
element per 8 bytes. -/
theorem log_prob_gradient_malformed (pdf : SafeUserPDF) (state : List Nat)
    (response : LogProbGradientResponse)
    (hresp : pdf.stub.LogProbGradient
        { state_bytes := encode_array state, job_id := pdf.job_id } = .ok response) :
    (response.gradient_bytes.length % 8 ≠ 0 →
        pdf.log_prob_gradient state
          = .error (.valueError "buffer size must be a multiple of element size"))
      ∧ (response.gradient_bytes.length % 8 = 0 →
          pdf.log_prob_gradient state = .ok (decodeF64s response.gradient_bytes)
            ∧ 8 * (decodeF64s response.gradient_bytes).length
                = response.gradient_bytes.length) := by
  constructor
  · intro hmod
    unfold SafeUserPDF.log_prob_gradient
    simp only [hresp]
    unfold decode_array
    rw [if_neg hmod]
  · intro hmod
    refine ⟨?_, decodeF64s_length response.gradient_bytes hmod⟩
    unfold SafeUserPDF.log_prob_gradient
    simp only [hresp]
    unfold decode_array
    rw [if_pos hmod]

/-- A stub whose gradient response is a 9-byte buffer, not a multiple of
the element size. -/
def nineByteStub : UserCodeStub :=
  { LogProb := fun _ => .error (.rpcError "unimplemented")
    LogProbGradient := fun _ => .ok { gradient_bytes := [0, 0, 0, 0, 0, 0, 0, 0, 0] } }

/-- Witness for C4 as amended: a 9-byte gradient payload makes
`log_prob_gradient` fail with the raw `ValueError`. -/
theorem log_prob_gradient_malformed_witness :
    (SafeUserPDF.mk nineByteStub "job").stub.LogProbGradient
        { state_bytes := encode_array [0], job_id := "job" }
        = .ok { gradient_bytes := [0, 0, 0, 0, 0, 0, 0, 0, 0] }
      ∧ ([0, 0, 0, 0, 0, 0, 0, 0, 0] : List Nat).length % 8 ≠ 0
      ∧ SafeUserPDF.log_prob_gradient { stub := nineByteStub, job_id := "job" } [0]
          = .error (.valueError "buffer size must be a multiple of element size") :=
  ⟨rfl, by decide,
    (log_prob_gradient_malformed { stub := nineByteStub, job_id := "job" } [0]
        { gradient_bytes := [0, 0, 0, 0, 0, 0, 0, 0, 0] } rfl).1 (by decide)⟩

/-- A stub both of whose calls fail with a transport error. -/
def failingStub : UserCodeStub :=
  { LogProb := fun _ => .error (.rpcError "connection refused")
    LogProbGradient := fun _ => .error (.rpcError "connection refused") }

/-- Counterexample to C6: a transport failure in `log_prob` reaches the
caller as the raw transport error, which is not the wrapped
evaluation-failure kind the spec describes. -/
theorem log_prob_unwrapped_counterexample :
    SafeUserPDF.log_prob { stub := failingStub, job_id := "job" } [1]
        = .error (.rpcError "connection refused")
      ∧ (PDFError.rpcError "connection refused").isRemoteEvaluationError = false :=
  ⟨rfl, rfl⟩

/-- C6 as amended: `SafeUserPDF.log_prob` and `log_prob_gradient` contain
no error handling — a stub failure (transport or remote-side) propagates
to the caller unchanged, and a gradient decode failure surfaces as the
raw `ValueError`; nothing is wrapped into an evaluation-failure kind. -/
theorem safe_user_pdf_error_propagation (pdf : SafeUserPDF) (state : List Nat) (e : PDFError) :
    (pdf.stub.LogProb { state_bytes := encode_array state, job_id := pdf.job_id } = .error e →
        pdf.log_prob state = .error e)
      ∧ (pdf.stub.LogProbGradient
            { state_bytes := encode_array state, job_id := pdf.job_id } = .error e →
          pdf.log_prob_gradient state = .error e)
      ∧ (∀ response message,
          pdf.stub.LogProbGradient
              { state_bytes := encode_array state, job_id := pdf.job_id } = .ok response →
          decode_array response.gradient_bytes = .error message →
          pdf.log_prob_gradient state = .error (.valueError message)) := by
  refine ⟨fun he => ?_, fun he => ?_, fun response message hresp hdec => ?_⟩
  · unfold SafeUserPDF.log_prob
    simp only [he]
  · unfold SafeUserPDF.log_prob_gradient
    simp only [he]
  · unfold SafeUserPDF.log_prob_gradient
    simp only [hresp, hdec]

/-- Witness for C6 as amended: with a failing stub, the transport error
reaches the caller of `log_prob` unchanged. -/
theorem safe_user_pdf_error_propagation_witness :
    (SafeUserPDF.mk failingStub "job").stub.LogProb
        { state_bytes := encode_array [1], job_id := "job" }
        = .error (.rpcError "connection refused")
      ∧ SafeUserPDF.log_prob { stub := failingStub, job_id := "job" } [1]
          = .error (.rpcError "connection refused") :=
  ⟨rfl, (safe_user_pdf_error_propagation { stub := failingStub, job_id := "job" } [1]
      (.rpcError "connection refused")).1 rfl⟩

end Resaas
